import Mathlib

/-!
Verification of the MCP_GO server (session-oriented RPC over HTTP).

Shallow embedding of the Go sources:
  * `mcp/types.go`  — wire envelope types (`Request`, `Response`, `ErrorResponse`,
    `CancellationParams`, `CancellationNotification`, `Session`);
  * the server file (`Server`, `processRequest`, `validateSession`, `handleDelete`,
    session registration in `handleGet`, `broadcastToSession`, `HandleLegacySSE`,
    `handleCancellation`, `handlePing`);
  * the tools file (`Tool`, `ToolCallRequest`, `ContentItem`, `ToolResult`,
    `WeatherArgs`, `weatherTool`, `getAvailableTools`, `handleToolsList`,
    `handleToolCall`, `handleWeatherTool`).

Modelling conventions:
  * JSON values are the inductive `Json`; `json.RawMessage` fields become
    `Option Json` (`none` models a nil raw message, which `json.Unmarshal`
    rejects with "unexpected end of JSON input"; `some .null` models the
    raw bytes "null", which unmarshals into a struct as a no-op).
  * Go's `json.Unmarshal` into the three small parameter structs is embedded
    by explicit functions returning `Except String _`, mirroring Go's
    behaviour: a missing field keeps the zero value, a JSON null leaves the
    field untouched, a type mismatch is an error, a non-object (other than
    null) is an error, duplicate keys keep the last occurrence.  (Go's
    decoder additionally matches field names case-insensitively; no claim
    depends on that and lookups here use the exact tag names.)
  * The mutable `Server` (session map, active-request map) becomes the
    functional record `ServerState`; Go channels become bounded queues
    (`MsgQueue`) identified by a numeric id standing for reference identity,
    and invoking a `context.CancelFunc` is modelled by marking its handle id
    in the `invoked` field.
  * JSON-RPC ids are of Go type `any`; they are only ever echoed, so they are
    embedded as `Option Json` (`none` = absent / nil id).
-/

/-- JSON values (numbers restricted to integers: every number in the sources
and the claims is integral and ids are echoed opaquely). -/
inductive Json where
  | null : Json
  | bool : Bool → Json
  | num : Int → Json
  | str : String → Json
  | arr : List Json → Json
  | obj : List (String × Json) → Json

/-- `ErrorResponse` from types.go: code, message, optional data payload. -/
structure ErrorResponse where
  code : Int
  message : String
  data : Option Json

/-- `ContentItem` from the tools file. -/
structure ContentItem where
  type : String
  text : String

/-- `ToolResult` from the tools file. -/
structure ToolResult where
  content : List ContentItem
  isError : Bool

/-- `Tool` from the tools file (input schema kept as a JSON value). -/
structure Tool where
  name : String
  description : String
  inputSchema : Json

/-- The payloads the server ever passes to `marshalJSON` when building a
result: the empty struct (ping), `{"capabilities": ...}`, `{"tools": [...]}`,
and a `ToolResult`. -/
inductive ResultPayload where
  | emptyObj : ResultPayload
  | capabilitiesResult : Json → ResultPayload
  | toolList : List Tool → ResultPayload
  | toolResult : ToolResult → ResultPayload

/-- `Response` from types.go, with the embedded `JSONRPC` fields flattened:
jsonrpc version string, optional id, optional result, optional error. -/
structure Response where
  version : String
  id : Option Json
  result : Option ResultPayload
  error : Option ErrorResponse

/-- `Request` from types.go, with the embedded `JSONRPC` fields flattened. -/
structure Request where
  version : String
  id : Option Json
  method : String
  params : Option Json

/-- `CancellationParams` from types.go. -/
structure CancellationParams where
  requestID : String
  reason : String

/-- `CancellationNotification` from types.go. -/
structure CancellationNotification where
  version : String
  method : String
  params : CancellationParams

/-- `ToolCallRequest` from the tools file; `Arguments` is a raw message. -/
structure ToolCallRequest where
  name : String
  arguments : Option Json

/-- `WeatherArgs` from the tools file. -/
structure WeatherArgs where
  location : String

/-- Field lookup in a decoded JSON object.  Go's decoder processes keys in
input order and a later duplicate overwrites an earlier one, so the last
occurrence wins. -/
def lookupField : List (String × Json) → String → Option Json
  | [], _ => none
  | (k, v) :: rest, key =>
      match lookupField rest key with
      | some v2 => some v2
      | none => if k = key then some v else none

/-- Go `json.Unmarshal` behaviour for a `string`-typed struct field: absent
field or JSON null keeps the zero value `""`; a JSON string is taken; any
other JSON value is a type-mismatch error. -/
def unmarshalStringField (fields : List (String × Json)) (key : String) :
    Except String String :=
  match lookupField fields key with
  | none => .ok ""
  | some .null => .ok ""
  | some (.str s) => .ok s
  | some _ => .error ("cannot unmarshal field " ++ key)

/-- `json.Unmarshal(req.Params, &cancelParams)` for `CancellationParams`. -/
def unmarshalCancellationParams : Option Json → Except String CancellationParams
  | none => .error "unexpected end of JSON input"
  | some .null => .ok { requestID := "", reason := "" }
  | some (.obj fields) => do
      let rid ← unmarshalStringField fields "requestId"
      let reason ← unmarshalStringField fields "reason"
      .ok { requestID := rid, reason := reason }
  | some _ => .error "cannot unmarshal into CancellationParams"

/-- `json.Unmarshal(args, &weatherArgs)` for `WeatherArgs`. -/
def unmarshalWeatherArgs : Option Json → Except String WeatherArgs
  | none => .error "unexpected end of JSON input"
  | some .null => .ok { location := "" }
  | some (.obj fields) => do
      let loc ← unmarshalStringField fields "location"
      .ok { location := loc }
  | some _ => .error "cannot unmarshal into WeatherArgs"

/-- `json.Unmarshal(req.Params, &toolReq)` for `ToolCallRequest`: the
`arguments` field is captured as a raw message (present-with-null is the raw
bytes "null", i.e. `some .null`; absent is nil, i.e. `none`). -/
def unmarshalToolCallRequest : Option Json → Except String ToolCallRequest
  | none => .error "unexpected end of JSON input"
  | some .null => .ok { name := "", arguments := none }
  | some (.obj fields) => do
      let nm ← unmarshalStringField fields "name"
      .ok { name := nm, arguments := lookupField fields "arguments" }
  | some _ => .error "cannot unmarshal into ToolCallRequest"

/-- The input schema literal of `weatherTool`. -/
def weatherToolSchema : Json :=
  .obj [("type", .str "object"),
        ("properties",
          .obj [("location",
                  .obj [("type", .str "string"),
                        ("description", .str "City name or zip code")])]),
        ("required", .arr [.str "location"])]

/-- `weatherTool` from the tools file. -/
def weatherTool : Tool :=
  { name := "get_weather"
    description := "Get current weather information for a location"
    inputSchema := weatherToolSchema }

/-- `getAvailableTools`: the static tool catalog. -/
def getAvailableTools : List Tool := [weatherTool]

/-- A message sent over a subscriber channel (`interface{}` in Go): either a
value whose JSON encoding is the given string, or a value `json.Marshal`
rejects. -/
inductive Msg where
  | marshalable : String → Msg
  | unmarshalable : Msg
deriving DecidableEq

/-- A subscriber message channel: `make(chan interface{}, 10)`.  `qid` stands
for the channel's reference identity (Go channels compare by reference). -/
structure MsgQueue where
  qid : Nat
  capacity : Nat
  buffer : List Msg
deriving DecidableEq

/-- `newMessageChan`: the channels created by both stream endpoints have
capacity 10. -/
def newMessageChan (qid : Nat) : MsgQueue :=
  { qid := qid, capacity := 10, buffer := [] }

/-- `Session` from types.go: id, negotiated capabilities, subscriber queues. -/
structure Session where
  id : String
  capabilities : Json
  messageChannels : List MsgQueue

/-- The `Server` state: the session table and the cancellation registry
(`activeRequests` maps a request id to a cancel-handle id; `invoked` records
which cancel handles have been called). -/
structure ServerState where
  sessions : String → Option Session
  activeRequests : String → Option Nat
  invoked : Nat → Bool

/-- `NewServer()`: empty session table, empty cancellation registry. -/
def emptyServerState : ServerState :=
  { sessions := fun _ => none
    activeRequests := fun _ => none
    invoked := fun _ => false }

/-- Pointwise update of a string-keyed Go map: assignment (`some v`) or
delete (`none`). -/
def mapSet {α : Type} (m : String → Option α) (key : String) (v : Option α) :
    String → Option α :=
  fun k => if k = key then v else m k

/-- `validateSession`: false for the empty id, otherwise membership in the
session table. -/
def validateSession (st : ServerState) (sessionID : String) : Bool :=
  if sessionID = "" then false
  else (st.sessions sessionID).isSome

/-- The capability set installed by the initialize handler:
`{tools: {listChanged: true}}`. -/
def defaultCapabilities : Json :=
  .obj [("tools", .obj [("listChanged", .bool true)])]

/-- The initialize handler: inserts a fresh session (the fresh uuid string is
passed in as `newID`; `uuid.New().String()` is never empty) and returns the
capabilities response echoing the request id. -/
def handleInitialize (st : ServerState) (newID : String) (req : Request) :
    ServerState × Response :=
  let session : Session :=
    { id := newID, capabilities := defaultCapabilities, messageChannels := [] }
  ({ st with sessions := mapSet st.sessions newID (some session) },
   { version := "2.0", id := req.id
     result := some (.capabilitiesResult defaultCapabilities), error := none })

/-- `handleDelete`: removes the session if (and only if) it validates; always
answers 204 regardless. -/
def handleDelete (st : ServerState) (sessionID : String) : ServerState :=
  if validateSession st sessionID then
    { st with sessions := mapSet st.sessions sessionID none }
  else st

/-- `handlePing`: empty success result, id echoed. -/
def handlePing (req : Request) : Response :=
  { version := "2.0", id := req.id, result := some .emptyObj, error := none }

/-- `handleToolsList`: the static catalog wrapped as a result, id echoed. -/
def handleToolsList (req : Request) : Response :=
  { version := "2.0", id := req.id
    result := some (.toolList getAvailableTools), error := none }

/-- `handleWeatherTool`: malformed arguments produce a successful envelope
whose result is a `ToolResult` flagged `isError:true`; otherwise mock weather
data flagged `isError:false`. -/
def handleWeatherTool (reqID : Option Json) (args : Option Json) : Response :=
  match unmarshalWeatherArgs args with
  | .error _ =>
      { version := "2.0", id := reqID
        result := some (.toolResult
          { content := [{ type := "text", text := "Failed to parse weather arguments" }]
            isError := true })
        error := none }
  | .ok weatherArgs =>
      { version := "2.0", id := reqID
        result := some (.toolResult
          { content := [{ type := "text"
                          text := "Current weather in " ++ weatherArgs.location ++
                            ":\nTemperature: 72°F\nConditions: Partly cloudy" }]
            isError := false })
        error := none }

/-- `handleToolCall`: unparseable params → -32602 "Invalid tool call
parameters"; the known tool delegates to the weather handler; any other name
→ -32602 naming the unknown tool. -/
def handleToolCall (req : Request) : Response :=
  match unmarshalToolCallRequest req.params with
  | .error _ =>
      { version := "2.0", id := req.id, result := none
        error := some { code := -32602, message := "Invalid tool call parameters", data := none } }
  | .ok toolReq =>
      if toolReq.name = "get_weather" then
        handleWeatherTool req.id toolReq.arguments
      else
        { version := "2.0", id := req.id, result := none
          error := some { code := -32602
                          message := "Unknown tool: " ++ toolReq.name, data := none } }

/-- `handleCancellation`: look up the cancel handle for the referenced request
id; if absent, return with no change; otherwise invoke the handle and remove
the record. -/
def handleCancellation (st : ServerState) (n : CancellationNotification) :
    ServerState :=
  match st.activeRequests n.params.requestID with
  | none => st
  | some h =>
      { st with
        activeRequests := mapSet st.activeRequests n.params.requestID none
        invoked := fun i => if i = h then true else st.invoked i }

/-- `processRequest`: the dispatcher switch.  For `notifications/cancelled`
with parseable params the handler runs and the function returns early with no
response (`none`); with unparseable params the switch falls through and the
zero-valued `Response` declared by `var response Response` is sent.  All
other branches send exactly the envelope they build. -/
def processRequest (st : ServerState) (req : Request) :
    ServerState × Option Response :=
  if req.method = "notifications/cancelled" then
    match unmarshalCancellationParams req.params with
    | .ok cancelParams =>
        (handleCancellation st
          { version := req.version, method := req.method, params := cancelParams },
         none)
    | .error _ =>
        (st, some { version := "", id := none, result := none, error := none })
  else if req.method = "ping" then
    (st, some (handlePing req))
  else if req.method = "tools/list" then
    (st, some (handleToolsList req))
  else if req.method = "tools/call" then
    (st, some (handleToolCall req))
  else
    (st, some { version := "2.0", id := req.id, result := none
                error := some { code := -32601
                                message := "Method not found: " ++ req.method
                                data := none } })

/-- The subscriber registration in the unified GET handler: the session is
looked up without a nil check and its `MessageChannels` field is dereferenced
to append the fresh channel.  The `none` result models the nil-pointer panic
that would occur if the id were absent from the table. -/
def handleGetRegister (st : ServerState) (sessionID : String) (q : MsgQueue) :
    Option ServerState :=
  match st.sessions sessionID with
  | none => none
  | some session =>
      let session2 : Session :=
        { session with messageChannels := session.messageChannels ++ [q] }
      some { st with sessions := mapSet st.sessions sessionID (some session2) }

/-- The deferred cleanup loop in the unified GET handler: remove the first
channel that is (reference-)equal to this connection's channel, then break;
if no channel matches, the list is left unchanged. -/
def removeFirstQueue : List MsgQueue → Nat → List MsgQueue
  | [], _ => []
  | q :: qs, qid => if q.qid = qid then qs else q :: removeFirstQueue qs qid

/-- The deferred cleanup of the unified GET handler: detach this connection's
subscriber channel from the session; the session itself stays in the table. -/
def handleGetDetach (st : ServerState) (sessionID : String) (qid : Nat) :
    ServerState :=
  match st.sessions sessionID with
  | none => st
  | some session =>
      let session2 : Session :=
        { session with messageChannels := removeFirstQueue session.messageChannels qid }
      { st with sessions := mapSet st.sessions sessionID (some session2) }

/-- `broadcastToSession`'s per-channel non-blocking send: the Go `select`
with a `default` branch enqueues when the channel has spare capacity and
otherwise skips this client, leaving its queue untouched. -/
def trySend (q : MsgQueue) (m : Msg) : MsgQueue :=
  if q.buffer.length < q.capacity then { q with buffer := q.buffer ++ [m] } else q

/-- `broadcastToSession`: unknown session → return immediately; otherwise
attempt a non-blocking send on every subscriber channel of the session. -/
def broadcastToSession (st : ServerState) (sessionID : String) (m : Msg) :
    ServerState :=
  match st.sessions sessionID with
  | none => st
  | some session =>
      let session2 : Session :=
        { session with messageChannels := session.messageChannels.map (fun q => trySend q m) }
      { st with sessions := mapSet st.sessions sessionID (some session2) }

/-- The session set up by `HandleLegacySSE`: a fresh uuid id, no negotiated
capabilities (the Go struct literal leaves the map nil, modelled as JSON
null), and exactly this connection's channel subscribed. -/
def handleLegacySSEConnect (st : ServerState) (newID : String) (qid : Nat) :
    ServerState :=
  let session : Session :=
    { id := newID, capabilities := Json.null, messageChannels := [newMessageChan qid] }
  { st with sessions := mapSet st.sessions newID (some session) }

/-- The deferred cleanup of `HandleLegacySSE`: the entire ad hoc session is
deleted from the table (no validate guard; Go map delete of an absent key is
a no-op, and so is the pointwise update here). -/
def legacySSEDisconnect (st : ServerState) (sessionID : String) : ServerState :=
  { st with sessions := mapSet st.sessions sessionID none }

/-- The three conditions of the `select` in the stream event loops: the
client-disconnect signal, a message arriving on the subscriber channel, or
`time.After(keepaliveIntervalSeconds * time.Second)` firing. -/
inductive LoopEvent where
  | disconnect : LoopEvent
  | message : Msg → LoopEvent
  | timeout : LoopEvent
deriving DecidableEq

/-- One iteration's observable outcome: what was written to the stream,
whether the writer was flushed, and whether the loop returned. -/
structure LoopStepResult where
  output : Option String
  flushed : Bool
  exits : Bool
deriving DecidableEq

/-- The idle interval of the keepalive timer: `time.After(30 * time.Second)`. -/
def keepaliveIntervalSeconds : Nat := 30

/-- One iteration of the SSE event loop in the unified GET handler:
disconnect → return; message → marshal (on marshal error, continue with no
write) and emit a data event, flushing; timeout → emit the keepalive comment,
flushing; only disconnect exits. -/
def handleGetLoopStep : LoopEvent → LoopStepResult
  | .disconnect => { output := none, flushed := false, exits := true }
  | .message (.marshalable data) =>
      { output := some ("data: " ++ data ++ "\n\n"), flushed := true, exits := false }
  | .message .unmarshalable => { output := none, flushed := false, exits := false }
  | .timeout => { output := some ": keepalive\n\n", flushed := true, exits := false }

/-- One iteration of the SSE event loop in `HandleLegacySSE` (the loop body
is textually identical to the unified GET handler's). -/
def handleLegacySSELoopStep : LoopEvent → LoopStepResult
  | .disconnect => { output := none, flushed := false, exits := true }
  | .message (.marshalable data) =>
      { output := some ("data: " ++ data ++ "\n\n"), flushed := true, exits := false }
  | .message .unmarshalable => { output := none, flushed := false, exits := false }
  | .timeout => { output := some ": keepalive\n\n", flushed := true, exits := false }

/-- Running an event loop over a sequence of wait outcomes, collecting the
stream writes; iteration stops exactly when a step exits. -/
def runSSELoop (step : LoopEvent → LoopStepResult) : List LoopEvent → List String
  | [] => []
  | ev :: evs =>
      let r := step ev
      (match r.output with | some o => [o] | none => []) ++
        (if r.exits then [] else runSSELoop step evs)

/-- The session-registry mutations the server can perform, for stating
lifecycle properties of `validateSession`. -/
inductive RegOp where
  | initOp : String → RegOp
  | terminateOp : String → RegOp
  | attachOp : String → Nat → RegOp
  | detachOp : String → Nat → RegOp
  | broadcastOp : String → Msg → RegOp
  | legacyConnectOp : String → Nat → RegOp
  | legacyDisconnectOp : String → RegOp

/-- A placeholder initialize request (its content only affects the response
envelope, never the session table). -/
def dummyInitReq : Request :=
  { version := "2.0", id := none, method := "initialize", params := none }

/-- Applying one registry operation to the server state.  The `attachOp` case
applies the unified GET registration; its `none` (panic) outcome leaves the
state unchanged, which is immaterial for table-membership properties. -/
def applyRegOp (st : ServerState) : RegOp → ServerState
  | .initOp newID => ( handleInitialize st newID dummyInitReq).1
  | .terminateOp sid => handleDelete st sid
  | .attachOp sid qid =>
      match handleGetRegister st sid (newMessageChan qid) with
      | some st2 => st2
      | none => st
  | .detachOp sid qid => handleGetDetach st sid qid
  | .broadcastOp sid m => broadcastToSession st sid m
  | .legacyConnectOp newID qid => handleLegacySSEConnect st newID qid
  | .legacyDisconnectOp sid => legacySSEDisconnect st sid

/-- Whether a registry operation deletes the session with the given id: only
`handleDelete` and the legacy-SSE teardown remove sessions from the table. -/
def deletesSession (op : RegOp) (sid : String) : Bool :=
  match op with
  | .terminateOp s => s == sid
  | .legacyDisconnectOp s => s == sid
  | _ => false

/-- Folding a list of registry operations over the state. -/
def applyRegOps (st : ServerState) (ops : List RegOp) : ServerState :=
  ops.foldl applyRegOp st

/-! ### Statement abbreviations and concrete fixtures -/

/-- The zero value of Go's `Response` type: this is what `var response
Response` holds when the dispatcher's switch sets nothing before
`sendResponse` runs. -/
def zeroResponse : Response :=
  { version := "", id := none, result := none, error := none }

/-- The envelope built by the dispatcher's default branch. -/
def methodNotFoundResponse (req : Request) : Response :=
  { version := "2.0", id := req.id, result := none
    error := some { code := -32601
                    message := "Method not found: " ++ req.method
                    data := none } }

/-- The envelope built by `handleWeatherTool` when the arguments fail to
parse: a successful envelope whose result is an error-flagged `ToolResult`. -/
def weatherParseFailureResponse (rid : Option Json) : Response :=
  { version := "2.0", id := rid
    result := some (.toolResult
      { content := [{ type := "text", text := "Failed to parse weather arguments" }]
        isError := true })
    error := none }

/-- The envelope built by `handleToolCall` for an unknown tool name. -/
def unknownToolResponse (rid : Option Json) (nm : String) : Response :=
  { version := "2.0", id := rid, result := none
    error := some { code := -32602, message := "Unknown tool: " ++ nm, data := none } }

/-- A `notifications/cancelled` request with a nil params raw message
(`json.Unmarshal` fails on it). -/
def cancelledNoParamsReq : Request :=
  { version := "2.0", id := some (.num 1), method := "notifications/cancelled"
    params := none }

/-- A `notifications/cancelled` request whose params are a JSON string, which
cannot unmarshal into `CancellationParams`. -/
def cancelledBadParamsReq : Request :=
  { version := "2.0", id := some (.num 3), method := "notifications/cancelled"
    params := some (.str "bad") }

/-- A well-formed `notifications/cancelled` request referencing request id
"r1". -/
def cancelledOkParamsReq : Request :=
  { version := "2.0", id := some (.num 2), method := "notifications/cancelled"
    params := some (.obj [("requestId", .str "r1")]) }

/-- The unrecognized-method request of the spec's example: method "foo/bar",
id 7. -/
def fooBarReq : Request :=
  { version := "2.0", id := some (.num 7), method := "foo/bar", params := none }

/-- A ping request. -/
def pingReq : Request :=
  { version := "2.0", id := some (.num 9), method := "ping", params := none }

/-- A `tools/call` request naming the known tool with unparseable arguments
(a JSON number where an object is required). -/
def weatherBadArgsReq : Request :=
  { version := "2.0", id := some (.num 4), method := "tools/call"
    params := some (.obj [("name", .str "get_weather"), ("arguments", .num 5)]) }

/-- A `tools/call` request naming a tool absent from the catalog. -/
def unknownToolReq : Request :=
  { version := "2.0", id := some (.num 5), method := "tools/call"
    params := some (.obj [("name", .str "nosuch")]) }

/-- A subscriber queue of capacity 1 that is already full. -/
def fullQueue : MsgQueue :=
  { qid := 0, capacity := 1, buffer := [Msg.marshalable "old"] }

/-- A session ("a") with one full subscriber queue. -/
def sessA : Session :=
  { id := "a", capabilities := Json.null, messageChannels := [fullQueue] }

/-- A session ("c") with no subscribers. -/
def sessC : Session :=
  { id := "c", capabilities := Json.null, messageChannels := [] }

/-- A session ("d") with two empty subscriber queues, ids 1 and 2. -/
def sessD : Session :=
  { id := "d", capabilities := defaultCapabilities
    messageChannels := [newMessageChan 1, newMessageChan 2] }

/-- A server state holding sessions "a" (one full queue), "c" (no
subscribers) and "d" (two subscribers); "b" is unknown. -/
def fixtureState : ServerState :=
  { sessions := fun k =>
      if k = "a" then some sessA
      else if k = "c" then some sessC
      else if k = "d" then some sessD
      else none
    activeRequests := fun _ => none
    invoked := fun _ => false }

/-- A trace of registry operations that never deletes session "a". -/
def traceOpsA : List RegOp :=
  [RegOp.broadcastOp "a" (Msg.marshalable "m"), RegOp.attachOp "a" 7,
   RegOp.detachOp "a" 7, RegOp.terminateOp "b", RegOp.initOp "c",
   RegOp.legacyConnectOp "e" 9, RegOp.legacyDisconnectOp "e"]

/-- The envelope the spec's example expects for `fooBarReq`. -/
def fooBarResp : Response :=
  { version := "2.0", id := some (.num 7), result := none
    error := some { code := -32601, message := "Method not found: foo/bar", data := none } }

/-- The envelope `handlePing` builds for `pingReq`. -/
def pingResp : Response :=
  { version := "2.0", id := some (.num 9), result := some .emptyObj, error := none }

/-- A decoded cancellation notification referencing request id "r1". -/
def cancNotifR1 : CancellationNotification :=
  { version := "2.0", method := "notifications/cancelled"
    params := { requestID := "r1", reason := "" } }

/-! ### Helper lemmas -/

theorem mapSet_same {α : Type} (m : String → Option α) (key : String) (v : Option α) :
    mapSet m key v key = v := by
  simp [mapSet]

theorem mapSet_ne {α : Type} (m : String → Option α) (key : String) (v : Option α)
    (k : String) (h : k ≠ key) : mapSet m key v k = m k := by
  simp [mapSet, h]

theorem mapSet_eq_self {α : Type} (m : String → Option α) (key : String) (v : Option α)
    (h : m key = v) : mapSet m key v = m := by
  funext k
  by_cases hk : k = key
  · subst hk; simp [mapSet, h]
  · simp [mapSet, hk]

theorem mapSet_some_isSome {α : Type} (m : String → Option α) (key : String) (v : α)
    (k : String) (h : (m k).isSome) : (mapSet m key (some v) k).isSome := by
  unfold mapSet
  split <;> simp_all

theorem validateSession_empty_false (st : ServerState) :
    validateSession st "" = false := by
  simp [validateSession]

theorem validateSession_of_none (st : ServerState) (i : String)
    (h : st.sessions i = none) : validateSession st i = false := by
  unfold validateSession
  split <;> simp [h]

theorem validateSession_true_iff (st : ServerState) (i : String) :
    validateSession st i = true ↔ i ≠ "" ∧ (st.sessions i).isSome := by
  unfold validateSession
  split <;> simp_all

theorem removeFirstQueue_mem (l : List MsgQueue) (qid : Nat) (q : MsgQueue)
    (hmem : q ∈ l) (hne : q.qid ≠ qid) : q ∈ removeFirstQueue l qid := by
  induction l with
  | nil => cases hmem
  | cons x xs ih =>
      unfold removeFirstQueue
      rcases List.mem_cons.mp hmem with h | h
      · subst h
        simp [hne]
      · by_cases hx : x.qid = qid
        · simp [hx, h]
        · simp only [hx, if_neg]
          exact List.mem_cons_of_mem x (ih h)


theorem handleDelete_sessions_ne (st : ServerState) (sid i : String) (h : i ≠ sid) :
    (handleDelete st sid).sessions i = st.sessions i := by
  unfold handleDelete
  split
  · exact mapSet_ne _ _ _ _ h
  · rfl

theorem handleGetRegister_some_sessions_isSome (st : ServerState) (sid : String)
    (q : MsgQueue) (st2 : ServerState) (i : String)
    (hr : handleGetRegister st sid q = some st2)
    (h : (st.sessions i).isSome) : (st2.sessions i).isSome := by
  unfold handleGetRegister at hr
  cases hs : st.sessions sid with
  | none => rw [hs] at hr; cases hr
  | some session =>
      rw [hs] at hr
      cases hr
      exact mapSet_some_isSome _ _ _ _ h

theorem handleGetDetach_sessions_isSome (st : ServerState) (sid : String) (qid : Nat)
    (i : String) (h : (st.sessions i).isSome) :
    ((handleGetDetach st sid qid).sessions i).isSome := by
  unfold handleGetDetach
  cases hs : st.sessions sid with
  | none => exact h
  | some session => exact mapSet_some_isSome _ _ _ _ h

theorem broadcastToSession_sessions_isSome (st : ServerState) (sid : String) (m : Msg)
    (i : String) (h : (st.sessions i).isSome) :
    ((broadcastToSession st sid m).sessions i).isSome := by
  unfold broadcastToSession
  cases hs : st.sessions sid with
  | none => exact h
  | some session => exact mapSet_some_isSome _ _ _ _ h

theorem applyRegOp_preserves_valid (st : ServerState) (i : String) (op : RegOp)
    (h : validateSession st i = true) (hop : deletesSession op i = false) :
    validateSession (applyRegOp st op) i = true := by
  obtain ⟨hne, hsome⟩ := (validateSession_true_iff st i).mp h
  apply (validateSession_true_iff _ i).mpr
  refine ⟨hne, ?_⟩
  cases op with
  | initOp newID =>
      simp only [applyRegOp]
      exact mapSet_some_isSome _ _ _ _ hsome
  | terminateOp sid =>
      have hne2 : i ≠ sid := by
        simp only [deletesSession, beq_eq_false_iff_ne, ne_eq] at hop
        exact fun he => hop he.symm
      simp only [applyRegOp]
      rw [handleDelete_sessions_ne st sid i hne2]
      exact hsome
  | attachOp sid qid =>
      simp only [applyRegOp]
      cases hr : handleGetRegister st sid (newMessageChan qid) with
      | none => exact hsome
      | some st2 =>
          exact handleGetRegister_some_sessions_isSome st sid _ st2 i hr hsome
  | detachOp sid qid =>
      simp only [applyRegOp]
      exact handleGetDetach_sessions_isSome st sid qid i hsome
  | broadcastOp sid m =>
      simp only [applyRegOp]
      exact broadcastToSession_sessions_isSome st sid m i hsome
  | legacyConnectOp newID qid =>
      simp only [applyRegOp]
      exact mapSet_some_isSome _ _ _ _ hsome
  | legacyDisconnectOp sid =>
      have hne2 : i ≠ sid := by
        simp only [deletesSession, beq_eq_false_iff_ne, ne_eq] at hop
        exact fun he => hop he.symm
      simp only [applyRegOp, legacySSEDisconnect]
      rw [mapSet_ne _ _ _ _ hne2]
      exact hsome

theorem applyRegOps_preserves_valid (ops : List RegOp) (st : ServerState) (i : String)
    (h : validateSession st i = true)
    (hops : ∀ op ∈ ops, deletesSession op i = false) :
    validateSession (applyRegOps st ops) i = true := by
  induction ops generalizing st with
  | nil => exact h
  | cons op rest ih =>
      exact ih (applyRegOp st op)
        (applyRegOp_preserves_valid st i op h (hops op (List.mem_cons_self op rest)))
        (fun o ho => hops o (List.mem_cons_of_mem op ho))

theorem handleWeatherTool_wellformed (rid : Option Json) (args : Option Json) :
    (handleWeatherTool rid args).version = "2.0"
    ∧ (handleWeatherTool rid args).id = rid
    ∧ (handleWeatherTool rid args).result.isSome
    ∧ (handleWeatherTool rid args).error = none := by
  unfold handleWeatherTool
  cases h : unmarshalWeatherArgs args <;> simp

theorem handleToolCall_wellformed (req : Request) :
    (handleToolCall req).version = "2.0"
    ∧ (handleToolCall req).id = req.id
    ∧ (((handleToolCall req).result.isSome ∧ (handleToolCall req).error = none)
        ∨ ((handleToolCall req).result = none ∧ (handleToolCall req).error.isSome)) := by
  unfold handleToolCall
  cases h : unmarshalToolCallRequest req.params with
  | error e => simp
  | ok toolReq =>
      by_cases hn : toolReq.name = "get_weather"
      · obtain ⟨h1, h2, h3, h4⟩ := handleWeatherTool_wellformed req.id toolReq.arguments
        simp [hn, h1, h2, h3, h4]
      · simp [hn]

/-! ### The claims -/

/-- C3: for every dispatched request whose method name is not one of the
recognized methods (initialize, ping, tools/list, tools/call,
notifications/cancelled), the response is an error envelope with code
-32601 and message "Method not found: <method>" naming the unrecognized
method, with the original request identifier echoed and no result, and the
state untouched. -/
theorem processRequest_method_not_found (st : ServerState) (req : Request)
    (h : req.method ∉
      ["initialize", "ping", "tools/list", "tools/call", "notifications/cancelled"]) :
    processRequest st req = (st, some (methodNotFoundResponse req)) := by
  have h1 : req.method ≠ "notifications/cancelled" := fun he => h (by simp [he])
  have h2 : req.method ≠ "ping" := fun he => h (by simp [he])
  have h3 : req.method ≠ "tools/list" := fun he => h (by simp [he])
  have h4 : req.method ≠ "tools/call" := fun he => h (by simp [he])
  unfold processRequest
  rw [if_neg h1, if_neg h2, if_neg h3, if_neg h4]
  rfl

/-- C3 witness: dispatching method "foo/bar" with id 7 yields exactly
`{jsonrpc:"2.0", id:7, error:{code:-32601, message:"Method not found:
foo/bar"}}` and no result. -/
theorem processRequest_method_not_found_witness :
    processRequest emptyServerState fooBarReq = (emptyServerState, some fooBarResp) :=
  processRequest_method_not_found emptyServerState fooBarReq (by decide)

/-- C1 counterexample: the claim "for every dispatched request whose method
is notifications/cancelled, the server sends no response envelope" is false:
for a `notifications/cancelled` request whose params raw message is nil,
`json.Unmarshal` fails, the switch falls through without returning, and the
dispatcher sends the zero-valued envelope. -/
theorem cancelled_malformed_sends_envelope :
    (processRequest emptyServerState cancelledNoParamsReq).2 = some zeroResponse := rfl

/-- C1 (amended): for every dispatched `notifications/cancelled` request
whose params unmarshal successfully, the server sends no response envelope
and only runs the cancellation handler; and when the referenced request
identifier has no matching active cancellation record, the notification is
silently ignored: the handler returns the state unchanged (no error
produced, no cancellation handle invoked, cancellation registry unchanged).
(When the params fail to unmarshal, the zero-valued envelope is sent.) -/
theorem cancelled_wellformed_no_response (st st2 : ServerState) (req : Request)
    (p : CancellationParams) (n2 : CancellationNotification)
    (hm : req.method = "notifications/cancelled")
    (hp : unmarshalCancellationParams req.params = .ok p)
    (hno : st2.activeRequests n2.params.requestID = none) :
    processRequest st req
      = (handleCancellation st
          { version := req.version, method := req.method, params := p }, none)
    ∧ handleCancellation st2 n2 = st2 := by
  constructor
  · unfold processRequest
    rw [if_pos hm, hp]
  · unfold handleCancellation
    rw [hno]

/-- C1 witness: a well-formed cancellation for request id "r1" against the
empty registry produces no response and leaves the state unchanged. -/
theorem cancelled_wellformed_no_response_witness :
    processRequest emptyServerState cancelledOkParamsReq
      = (handleCancellation emptyServerState
          { version := cancelledOkParamsReq.version
            method := cancelledOkParamsReq.method
            params := { requestID := "r1", reason := "" } }, none)
    ∧ handleCancellation emptyServerState cancNotifR1 = emptyServerState :=
  cancelled_wellformed_no_response emptyServerState emptyServerState
    cancelledOkParamsReq { requestID := "r1", reason := "" } cancNotifR1 rfl rfl rfl

/-- C2 counterexample: the claim "every response envelope the dispatcher
sends carries exactly one of a result payload or an error object and echoes
the request's identifier" is false: for a `notifications/cancelled` request
with params that fail to unmarshal (here a JSON string), the dispatcher
sends the zero-valued envelope, which carries neither a result nor an error
and does not echo the request id 3. -/
theorem dispatch_zero_envelope_neither :
    (processRequest emptyServerState cancelledBadParamsReq).2 = some zeroResponse
    ∧ zeroResponse.result = none
    ∧ zeroResponse.error = none
    ∧ zeroResponse.id ≠ cancelledBadParamsReq.id := by
  refine ⟨rfl, rfl, rfl, ?_⟩
  simp [zeroResponse, cancelledBadParamsReq]

/-- C2 (amended): every response envelope the dispatcher sends for a
dispatched request whose method is not `notifications/cancelled` carries
exactly one of a result payload or an error object — never both and never
neither — and echoes the request's identifier (for a well-formed
`notifications/cancelled` no envelope is sent at all; for one with
unparseable params the zero-valued envelope is sent, carrying neither and
echoing nothing). -/
theorem dispatch_response_exactly_one (st : ServerState) (req : Request)
    (resp : Response)
    (hm : req.method ≠ "notifications/cancelled")
    (hsent : (processRequest st req).2 = some resp) :
    resp.version = "2.0"
    ∧ resp.id = req.id
    ∧ ((resp.result.isSome ∧ resp.error = none)
        ∨ (resp.result = none ∧ resp.error.isSome)) := by
  unfold processRequest at hsent
  rw [if_neg hm] at hsent
  by_cases h2 : req.method = "ping"
  · rw [if_pos h2] at hsent
    simp only [Option.some.injEq] at hsent
    subst hsent
    simp [handlePing]
  · rw [if_neg h2] at hsent
    by_cases h3 : req.method = "tools/list"
    · rw [if_pos h3] at hsent
      simp only [Option.some.injEq] at hsent
      subst hsent
      simp [handleToolsList]
    · rw [if_neg h3] at hsent
      by_cases h4 : req.method = "tools/call"
      · rw [if_pos h4] at hsent
        simp only [Option.some.injEq] at hsent
        subst hsent
        exact handleToolCall_wellformed req
      · rw [if_neg h4] at hsent
        simp only [Option.some.injEq] at hsent
        subst hsent
        simp

/-- C2 witness: the ping response for `pingReq` is version "2.0", echoes id
9, and carries a result and no error. -/
theorem dispatch_response_exactly_one_witness :
    pingResp.version = "2.0"
    ∧ pingResp.id = pingReq.id
    ∧ ((pingResp.result.isSome ∧ pingResp.error = none)
        ∨ (pingResp.result = none ∧ pingResp.error.isSome)) :=
  dispatch_response_exactly_one emptyServerState pingReq pingResp (by decide) rfl

/-- C4: for every `tools/call` request naming the known tool whose arguments
payload fails to parse, the dispatcher returns a successful envelope (no
error field) whose result is a `ToolResult` with `isError:true` and a
human-readable text content item — a tool-level failure, not a
protocol-level error. -/
theorem toolCall_malformed_args_tool_error (st : ServerState) (req : Request)
    (toolReq : ToolCallRequest) (e : String)
    (hmeth : req.method = "tools/call")
    (hparse : unmarshalToolCallRequest req.params = .ok toolReq)
    (hname : toolReq.name = "get_weather")
    (hargs : unmarshalWeatherArgs toolReq.arguments = .error e) :
    handleToolCall req = weatherParseFailureResponse req.id
    ∧ (processRequest st req).2 = some (weatherParseFailureResponse req.id)
    ∧ (weatherParseFailureResponse req.id).error = none
    ∧ (weatherParseFailureResponse req.id).result
        = some (.toolResult
            { content := [{ type := "text", text := "Failed to parse weather arguments" }]
              isError := true }) := by
  have hm1 : req.method ≠ "notifications/cancelled" := by rw [hmeth]; decide
  have hm2 : req.method ≠ "ping" := by rw [hmeth]; decide
  have hm3 : req.method ≠ "tools/list" := by rw [hmeth]; decide
  have h1 : handleToolCall req = weatherParseFailureResponse req.id := by
    unfold handleToolCall
    rw [hparse]
    simp only [if_pos hname]
    unfold handleWeatherTool
    rw [hargs]
    rfl
  refine ⟨h1, ?_, rfl, rfl⟩
  unfold processRequest
  rw [if_neg hm1, if_neg hm2, if_neg hm3, if_pos hmeth, h1]

/-- C4 witness: `tools/call` on "get_weather" with arguments `5` (not an
object) yields the successful error-flagged envelope. -/
theorem toolCall_malformed_args_tool_error_witness :
    handleToolCall weatherBadArgsReq = weatherParseFailureResponse weatherBadArgsReq.id
    ∧ (processRequest emptyServerState weatherBadArgsReq).2
        = some (weatherParseFailureResponse weatherBadArgsReq.id)
    ∧ (weatherParseFailureResponse weatherBadArgsReq.id).error = none
    ∧ (weatherParseFailureResponse weatherBadArgsReq.id).result
        = some (.toolResult
            { content := [{ type := "text", text := "Failed to parse weather arguments" }]
              isError := true }) :=
  toolCall_malformed_args_tool_error emptyServerState weatherBadArgsReq
    { name := "get_weather", arguments := some (.num 5) }
    "cannot unmarshal into WeatherArgs" rfl rfl rfl rfl

/-- C5: for every `tools/call` request whose params parse to a
`{name, arguments}` pair with a tool name not in the catalog, the dispatcher
returns an error envelope with code -32602 and a message naming the unknown
tool, with the request identifier echoed and no result. -/
theorem toolCall_unknown_tool (st : ServerState) (req : Request)
    (toolReq : ToolCallRequest)
    (hmeth : req.method = "tools/call")
    (hparse : unmarshalToolCallRequest req.params = .ok toolReq)
    (hname : toolReq.name ∉ getAvailableTools.map Tool.name) :
    handleToolCall req = unknownToolResponse req.id toolReq.name
    ∧ (processRequest st req).2 = some (unknownToolResponse req.id toolReq.name)
    ∧ (unknownToolResponse req.id toolReq.name).error
        = some { code := -32602, message := "Unknown tool: " ++ toolReq.name, data := none }
    ∧ (unknownToolResponse req.id toolReq.name).result = none := by
  have hm1 : req.method ≠ "notifications/cancelled" := by rw [hmeth]; decide
  have hm2 : req.method ≠ "ping" := by rw [hmeth]; decide
  have hm3 : req.method ≠ "tools/list" := by rw [hmeth]; decide
  have hgw : toolReq.name ≠ "get_weather" := by
    intro he
    apply hname
    rw [he]
    simp [getAvailableTools, weatherTool]
  have h1 : handleToolCall req = unknownToolResponse req.id toolReq.name := by
    unfold handleToolCall
    rw [hparse]
    simp only [if_neg hgw]
    rfl
  refine ⟨h1, ?_, rfl, rfl⟩
  unfold processRequest
  rw [if_neg hm1, if_neg hm2, if_neg hm3, if_pos hmeth, h1]

/-- C5 witness: `tools/call` on the absent tool "nosuch" yields the -32602
envelope naming it. -/
theorem toolCall_unknown_tool_witness :
    handleToolCall unknownToolReq = unknownToolResponse unknownToolReq.id "nosuch"
    ∧ (processRequest emptyServerState unknownToolReq).2
        = some (unknownToolResponse unknownToolReq.id "nosuch")
    ∧ (unknownToolResponse unknownToolReq.id "nosuch").error
        = some { code := -32602, message := "Unknown tool: " ++ "nosuch", data := none }
    ∧ (unknownToolResponse unknownToolReq.id "nosuch").result = none :=
  toolCall_unknown_tool emptyServerState unknownToolReq
    { name := "nosuch", arguments := none } rfl rfl (by decide)

theorem handleInitialize_sessions_same (st : ServerState) (newID : String)
    (req : Request) :
    ( handleInitialize st newID req).1.sessions newID
      = some { id := newID, capabilities := defaultCapabilities, messageChannels := [] } := by
  unfold handleInitialize
  exact mapSet_same _ _ _

theorem handleDelete_removes (st : ServerState) (sid : String)
    (h : validateSession st sid = true) :
    (handleDelete st sid).sessions sid = none := by
  unfold handleDelete
  rw [if_pos h]
  exact mapSet_same _ _ _

/-- C6: `validate("")` is always false and `validate(id)` is false for every
identifier not present in the session table; for every (non-empty, as uuids
are) identifier installed by the initialize handler, `validate` returns true
from the moment it is created, stays true across any sequence of registry
operations that does not delete that session, and becomes false again once
`terminate` (DELETE) removes it. -/
theorem validateSession_lifecycle (st : ServerState) (idU newID : String)
    (ops : List RegOp)
    (hunknown : st.sessions idU = none)
    (hfresh : newID ≠ "")
    (hops : ∀ op ∈ ops, deletesSession op newID = false) :
    validateSession st "" = false
    ∧ validateSession st idU = false
    ∧ validateSession (applyRegOps ( handleInitialize st newID dummyInitReq).1 ops) newID = true
    ∧ validateSession
        (handleDelete (applyRegOps ( handleInitialize st newID dummyInitReq).1 ops) newID)
        newID = false := by
  have hinit : validateSession ( handleInitialize st newID dummyInitReq).1 newID = true := by
    apply (validateSession_true_iff _ _).mpr
    refine ⟨hfresh, ?_⟩
    rw [handleInitialize_sessions_same]
    rfl
  have halive : validateSession
      (applyRegOps ( handleInitialize st newID dummyInitReq).1 ops) newID = true :=
    applyRegOps_preserves_valid ops _ newID hinit hops
  refine ⟨validateSession_empty_false st, validateSession_of_none st idU hunknown, halive, ?_⟩
  exact validateSession_of_none _ _ (handleDelete_removes _ _ halive)

/-- C6 witness: session "a" created by initialize validates as true through a
trace of broadcasts, attach/detach, an unrelated terminate, another
initialize and a legacy connect/disconnect, and validates false after its
own terminate; "" and the unknown "u" validate false. -/
theorem validateSession_lifecycle_witness :
    validateSession emptyServerState "" = false
    ∧ validateSession emptyServerState "u" = false
    ∧ validateSession
        (applyRegOps ( handleInitialize emptyServerState "a" dummyInitReq).1 traceOpsA) "a" = true
    ∧ validateSession
        (handleDelete (applyRegOps ( handleInitialize emptyServerState "a" dummyInitReq).1 traceOpsA) "a")
        "a" = false :=
  validateSession_lifecycle emptyServerState "u" "a" traceOpsA rfl (by decide) (by decide)

/-- C7: broadcast never blocks: each subscriber queue gets a non-blocking
enqueue attempt (`trySend`); a queue already at capacity drops the new
message and keeps its existing contents unchanged; broadcasting to an
unknown session identifier, or to a session with zero subscribers, is a
no-op on the state (no error, no panic). -/
theorem broadcast_nonblocking_lossy (st stE : ServerState)
    (sidU sid sidE : String) (m : Msg) (session sessE : Session) (q : MsgQueue)
    (hU : st.sessions sidU = none)
    (hS : st.sessions sid = some session)
    (hq : q.capacity ≤ q.buffer.length)
    (hE : stE.sessions sidE = some sessE)
    (hEmpty : sessE.messageChannels = []) :
    broadcastToSession st sidU m = st
    ∧ (broadcastToSession st sid m).sessions sid
        = some { session with messageChannels := session.messageChannels.map (fun x => trySend x m) }
    ∧ trySend q m = q
    ∧ broadcastToSession stE sidE m = stE := by
  refine ⟨?_, ?_, ?_, ?_⟩
  · simp only [broadcastToSession, hU]
  · simp only [broadcastToSession, hS]
    exact mapSet_same _ _ _
  · unfold trySend
    rw [if_neg (Nat.not_lt.mpr hq)]
  · have hmap : sessE.messageChannels.map (fun x => trySend x m) = sessE.messageChannels := by
      rw [hEmpty, List.map_nil]
    have hrec : ({ sessE with messageChannels := sessE.messageChannels } : Session) = sessE := rfl
    simp only [broadcastToSession, hE]
    rw [hmap, hrec, mapSet_eq_self stE.sessions sidE (some sessE) hE]

/-- C7 witness: in a state holding session "a" with one full queue and
session "c" with no subscribers, broadcasting to unknown "b" and to "c" are
no-ops, the full queue is left unchanged, and broadcasting to "a" maps
`trySend` over its queues. -/
theorem broadcast_nonblocking_lossy_witness :
    broadcastToSession fixtureState "b" (Msg.marshalable "new") = fixtureState
    ∧ (broadcastToSession fixtureState "a" (Msg.marshalable "new")).sessions "a"
        = some { sessA with messageChannels := sessA.messageChannels.map (fun x => trySend x (Msg.marshalable "new")) }
    ∧ trySend fullQueue (Msg.marshalable "new") = fullQueue
    ∧ broadcastToSession fixtureState "c" (Msg.marshalable "new") = fixtureState :=
  broadcast_nonblocking_lossy fixtureState fixtureState "b" "a" "c"
    (Msg.marshalable "new") sessA sessC fullQueue rfl rfl (by decide) rfl rfl

/-- C8: in the stream-transport event loop of both the unified GET endpoint
and the legacy SSE endpoint, the 30-second-idle timer branch emits the
comment-only keepalive line ": keepalive\n\n", flushes, and does not exit,
so the loop continues; a delivered message or a keepalive never terminates
the loop — the exit condition holds exactly for the client-disconnect
signal. -/
theorem sse_loop_keepalive_and_exit (ev evL : LoopEvent) (evs : List LoopEvent) :
    handleGetLoopStep LoopEvent.timeout
      = { output := some ": keepalive\n\n", flushed := true, exits := false }
    ∧ handleLegacySSELoopStep LoopEvent.timeout
      = { output := some ": keepalive\n\n", flushed := true, exits := false }
    ∧ keepaliveIntervalSeconds = 30
    ∧ ((handleGetLoopStep ev).exits = true ↔ ev = LoopEvent.disconnect)
    ∧ ((handleLegacySSELoopStep evL).exits = true ↔ evL = LoopEvent.disconnect)
    ∧ runSSELoop handleGetLoopStep (LoopEvent.timeout :: evs)
      = ": keepalive\n\n" :: runSSELoop handleGetLoopStep evs
    ∧ runSSELoop handleLegacySSELoopStep (LoopEvent.timeout :: evs)
      = ": keepalive\n\n" :: runSSELoop handleLegacySSELoopStep evs := by
  refine ⟨rfl, rfl, rfl, ?_, ?_, rfl, rfl⟩
  · cases ev with
    | disconnect => simp [handleGetLoopStep]
    | message msg => cases msg <;> simp [handleGetLoopStep]
    | timeout => simp [handleGetLoopStep]
  · cases evL with
    | disconnect => simp [handleLegacySSELoopStep]
    | message msg => cases msg <;> simp [handleLegacySSELoopStep]
    | timeout => simp [handleLegacySSELoopStep]

/-- C8 witness: the loop facts at a delivered message, at the disconnect
signal, and on the trace [timeout, disconnect]. -/
theorem sse_loop_keepalive_and_exit_witness :
    handleGetLoopStep LoopEvent.timeout
      = { output := some ": keepalive\n\n", flushed := true, exits := false }
    ∧ handleLegacySSELoopStep LoopEvent.timeout
      = { output := some ": keepalive\n\n", flushed := true, exits := false }
    ∧ keepaliveIntervalSeconds = 30
    ∧ ((handleGetLoopStep (LoopEvent.message (Msg.marshalable "x"))).exits = true
        ↔ LoopEvent.message (Msg.marshalable "x") = LoopEvent.disconnect)
    ∧ ((handleLegacySSELoopStep LoopEvent.disconnect).exits = true
        ↔ LoopEvent.disconnect = LoopEvent.disconnect)
    ∧ runSSELoop handleGetLoopStep (LoopEvent.timeout :: [LoopEvent.disconnect])
      = ": keepalive\n\n" :: runSSELoop handleGetLoopStep [LoopEvent.disconnect]
    ∧ runSSELoop handleLegacySSELoopStep (LoopEvent.timeout :: [LoopEvent.disconnect])
      = ": keepalive\n\n" :: runSSELoop handleLegacySSELoopStep [LoopEvent.disconnect] :=
  sse_loop_keepalive_and_exit (LoopEvent.message (Msg.marshalable "x"))
    LoopEvent.disconnect [LoopEvent.disconnect]

/-- C9: on stream disconnect, the unified GET endpoint removes only its own
subscriber queue from the session's subscriber set — the session stays in
the registry with the same identifier and capabilities, every other
subscriber queue is still present, and every other session is untouched —
whereas the legacy SSE endpoint removes its entire ad hoc session from the
registry, leaving other sessions untouched. -/
theorem stream_disconnect_cleanup (st stL : ServerState) (sid k sidL k2 : String)
    (qid : Nat) (session : Session) (q : MsgQueue)
    (hS : st.sessions sid = some session)
    (hk : k ≠ sid)
    (hqmem : q ∈ session.messageChannels)
    (hqid : q.qid ≠ qid)
    (hk2 : k2 ≠ sidL) :
    (handleGetDetach st sid qid).sessions sid
      = some { session with messageChannels := removeFirstQueue session.messageChannels qid }
    ∧ q ∈ removeFirstQueue session.messageChannels qid
    ∧ (handleGetDetach st sid qid).sessions k = st.sessions k
    ∧ (legacySSEDisconnect stL sidL).sessions sidL = none
    ∧ (legacySSEDisconnect stL sidL).sessions k2 = stL.sessions k2 := by
  refine ⟨?_, removeFirstQueue_mem _ _ _ hqmem hqid, ?_, ?_, ?_⟩
  · simp only [handleGetDetach, hS]
    exact mapSet_same _ _ _
  · simp only [handleGetDetach, hS]
    exact mapSet_ne _ _ _ _ hk
  · exact mapSet_same _ _ _
  · exact mapSet_ne _ _ _ _ hk2

/-- C9 witness: detaching queue 2 from session "d" keeps "d" (with queue 1
still subscribed) and leaves "b" alone; the legacy teardown of "a" removes
it entirely and leaves "c" alone. -/
theorem stream_disconnect_cleanup_witness :
    (handleGetDetach fixtureState "d" 2).sessions "d"
      = some { sessD with messageChannels := removeFirstQueue sessD.messageChannels 2 }
    ∧ newMessageChan 1 ∈ removeFirstQueue sessD.messageChannels 2
    ∧ (handleGetDetach fixtureState "d" 2).sessions "b" = fixtureState.sessions "b"
    ∧ (legacySSEDisconnect fixtureState "a").sessions "a" = none
    ∧ (legacySSEDisconnect fixtureState "a").sessions "c" = fixtureState.sessions "c" :=
  stream_disconnect_cleanup fixtureState fixtureState "d" "b" "a" "c" 2 sessD
    (newMessageChan 1) rfl (by decide) (by decide) (by decide) (by decide)

/-- C10: whenever `validateSession` has returned true for an identifier and
the table is unchanged, the subsequent map lookup yields a session, so the
unified GET handler's unguarded dereference when appending the new
subscriber queue cannot fail. -/
theorem handleGet_validated_lookup_safe (st : ServerState) (sid : String)
    (q : MsgQueue)
    (h : validateSession st sid = true) :
    (st.sessions sid).isSome ∧ (handleGetRegister st sid q).isSome := by
  obtain ⟨hne, hsome⟩ := (validateSession_true_iff st sid).mp h
  refine ⟨hsome, ?_⟩
  unfold handleGetRegister
  cases hs : st.sessions sid with
  | none => rw [hs] at hsome; simp at hsome
  | some session => simp

/-- C10 witness: session "a" validates in the fixture state, so its lookup
and registration both succeed. -/
theorem handleGet_validated_lookup_safe_witness :
    (fixtureState.sessions "a").isSome
    ∧ (handleGetRegister fixtureState "a" (newMessageChan 3)).isSome :=
  handleGet_validated_lookup_safe fixtureState "a" (newMessageChan 3) rfl
